import Mathlib

/-!
Verification development for the UPS power-quality filter plugin
(`playbooks/filter_plugins/ups_filters.py`).

The Python module is embedded shallowly:
* Python scalar values become the inductive type `PyVal`
  (`None`, `int`, `float`, `str`, `dict`).
* Python floats become `PyFloat`: a finite decimal `Dec` (an integer
  mantissa over a power of ten) or `inf`, `-inf`, `nan`.  The source
  performs no float arithmetic — only parsing of decimal literals,
  comparison and equality against integer literals, `int()` truncation
  and `str()` formatting — so exact decimals are a faithful carrier for
  every reachable finite value.  Double rounding of literals longer than
  seventeen significant digits, overflow of astronomically large
  literals to `inf`, and the scientific notation `str()` uses at and
  above 1e16 are not modelled; no claim depends on them.
* Fallible Python code (attribute errors, `int()` of a non-finite
  float) returns `Except String` carrying the Python `str(e)` message;
  the evaluator's `try/except` boundary is the total function
  `analyze_power_quality`.
-/

namespace UpsFilters

/-- Whitespace characters recognised by Python `str.strip()` and by the
regular-expression class `\s` (space, tab, newline, carriage return,
vertical tab, form feed). -/
def pyWs (c : Char) : Bool :=
  c == ' ' || c == '\t' || c == '\n' || c == '\r' ||
  c == Char.ofNat 11 || c == Char.ofNat 12

/-- Strip `pyWs` characters from both ends of a character list,
modelling Python `str.strip()` with no argument. -/
def stripWsL (cs : List Char) : List Char :=
  ((cs.dropWhile pyWs).reverse.dropWhile pyWs).reverse

/-- String version of `stripWsL`. -/
def stripWs (s : String) : String :=
  ⟨stripWsL s.data⟩

/-- Test whether `p` is a leading segment of `cs` (by direct recursion
so that concrete witnesses evaluate in the kernel). -/
def leadsWith : List Char → List Char → Bool
  | [], _ => true
  | _ :: _, [] => false
  | p :: ps, c :: cs => p == c && leadsWith ps cs

/-- Test whether `needle` occurs contiguously inside `hay`, modelling the
Python substring test `needle in hay`. -/
def subL (needle : List Char) : List Char → Bool
  | [] => leadsWith needle []
  | c :: cs => leadsWith needle (c :: cs) || subL needle cs

/-- String version of `subL`: Python `needle in hay`. -/
def subIn (needle hay : String) : Bool :=
  subL needle.data hay.data

/-- Power of ten, by structural recursion (kernel-reducible). -/
def pow10 : Nat → Nat
  | 0 => 1
  | e + 1 => pow10 e * 10

/-- Exact decimal number: the value `mant / 10 ^ exp`.  The
representation is positional, which is all the embedding needs: every
concrete value is produced by the same parsing functions on both sides
of any equation. -/
structure Dec where
  mant : Int
  exp : Nat
  deriving DecidableEq, Repr

/-- Rational value of a decimal (spec-side only; the executable code
paths stay on `Int`/`Nat` so the kernel can evaluate them). -/
def Dec.toRat (d : Dec) : ℚ :=
  (d.mant : ℚ) / (pow10 d.exp : ℚ)

/-- Model of a Python float value. -/
inductive PyFloat where
  | finite (d : Dec)
  | inf
  | negInf
  | nan
  deriving DecidableEq, Repr

/-- Python `f < n` for an integer literal `n`: `nan` compares false,
`inf` is above every integer, `-inf` below; finite `mant/10^e < n` iff
`mant < n * 10^e`. -/
def pyLtI : PyFloat → Int → Bool
  | .finite d, n => decide (d.mant < n * (pow10 d.exp : Int))
  | .inf, _ => false
  | .negInf, _ => true
  | .nan, _ => false

/-- Python `f > n` for an integer literal `n`. -/
def pyGtI : PyFloat → Int → Bool
  | .finite d, n => decide (n * (pow10 d.exp : Int) < d.mant)
  | .inf, _ => true
  | .negInf, _ => false
  | .nan, _ => false

/-- Python `f == n` for an integer literal `n`: only finite values can
equal an integer, and `nan` equals nothing. -/
def pyEqInt : PyFloat → Int → Bool
  | .finite d, n => decide (d.mant = n * (pow10 d.exp : Int))
  | _, _ => false

/-- Python truthiness of a float: `0.0` is falsy; `inf`, `-inf` and
`nan` are truthy. -/
def pyTruthyF : PyFloat → Bool
  | .finite d => decide (d.mant ≠ 0)
  | _ => true

/-- Truncation of a decimal toward zero (`Int.tdiv` truncates toward
zero and the divisor `10^exp` is positive). -/
def dTrunc (d : Dec) : Int :=
  d.mant.tdiv (pow10 d.exp : Int)

/-- Python `int()` applied to a float: truncates finite values toward
zero and raises on non-finite values; the strings are the Python
`str(e)` messages. -/
def pyTruncF : PyFloat → Except String Int
  | .finite d => .ok (dTrunc d)
  | .inf => .error "cannot convert float infinity to integer"
  | .negInf => .error "cannot convert float infinity to integer"
  | .nan => .error "cannot convert float NaN to integer"

/-- Decimal digit characters of `n`, least significant first; the fuel
argument only bounds the recursion and `n + 1` always suffices. -/
def natDigitsRev : Nat → Nat → List Char
  | 0, _ => []
  | fuel + 1, n =>
    if n = 0 then []
    else Char.ofNat (48 + n % 10) :: natDigitsRev fuel (n / 10)

/-- Decimal rendering of a natural number. -/
def natToStr (n : Nat) : String :=
  if n = 0 then "0" else ⟨(natDigitsRev (n + 1) n).reverse⟩

/-- Python `str()` of a finite float holding the value `mant/10^exp`:
sign, integer part, a dot, then the fraction digits with trailing zeros
removed (or the single digit `0` when the fraction is empty), matching
the shortest-repr output on every value the module can produce. -/
def fmtDec (d : Dec) : String :=
  let n := d.mant.natAbs
  let p := pow10 d.exp
  let lsd := natDigitsRev (n % p + 1) (n % p)
  let padded := lsd ++ List.replicate (d.exp - lsd.length) '0'
  let stripped := padded.dropWhile (· == '0')
  (if d.mant < 0 then "-" else "") ++ natToStr (n / p) ++ "." ++
    (if stripped.isEmpty then "0" else ⟨stripped.reverse⟩)

/-- Python `str()` of a float value. -/
def fmtF : PyFloat → String
  | .finite d => fmtDec d
  | .inf => "inf"
  | .negInf => "-inf"
  | .nan => "nan"

/-- Model of the Python values that flow through the filter plugin:
`None`, integers, floats, strings, and string-keyed dictionaries
(modelled as association lists in insertion order).  The wall-clock
timestamp attached to results is outside the embedding. -/
inductive PyVal where
  | none
  | int (n : Int)
  | float (f : PyFloat)
  | str (s : String)
  | dict (entries : List (String × PyVal))
  deriving Repr

mutual

/-- Python `repr()` of a value, as used by `str()` on containers.
String escaping inside `repr` is not modelled (no claim depends on
it). -/
def pyReprOf : PyVal → String
  | .none => "None"
  | .int n => toString n
  | .float f => fmtF f
  | .str s => "\x27" ++ s ++ "\x27"
  | .dict es => "\x7b" ++ reprEntries es ++ "\x7d"

/-- Comma-separated `repr` rendering of dictionary entries. -/
def reprEntries : List (String × PyVal) → String
  | [] => ""
  | [(k, v)] => "\x27" ++ k ++ "\x27: " ++ pyReprOf v
  | (k, v) :: e :: es =>
    "\x27" ++ k ++ "\x27: " ++ pyReprOf v ++ ", " ++ reprEntries (e :: es)

end

/-- Python `str()` of a value. -/
def pyStrOf : PyVal → String
  | .str s => s
  | v => pyReprOf v

/-- Python truthiness of a value: `None`, `0`, `0.0`, `""` and `{}` are
falsy. -/
def pyTruthy : PyVal → Bool
  | .none => false
  | .int n => decide (n ≠ 0)
  | .float f => pyTruthyF f
  | .str s => !s.isEmpty
  | .dict es => !es.isEmpty

mutual

/-- Decision procedure for equality of `PyVal`, written by hand because
the nested `List (String × PyVal)` occurrence defeats deriving. -/
def pyValDecEq : (a b : PyVal) → Decidable (a = b)
  | .none, .none => .isTrue rfl
  | .none, .int _ => .isFalse (fun h => PyVal.noConfusion h)
  | .none, .float _ => .isFalse (fun h => PyVal.noConfusion h)
  | .none, .str _ => .isFalse (fun h => PyVal.noConfusion h)
  | .none, .dict _ => .isFalse (fun h => PyVal.noConfusion h)
  | .int _, .none => .isFalse (fun h => PyVal.noConfusion h)
  | .int a, .int b =>
    match decEq a b with
    | .isTrue h => .isTrue (by rw [h])
    | .isFalse h => .isFalse (fun hc => h (by cases hc; rfl))
  | .int _, .float _ => .isFalse (fun h => PyVal.noConfusion h)
  | .int _, .str _ => .isFalse (fun h => PyVal.noConfusion h)
  | .int _, .dict _ => .isFalse (fun h => PyVal.noConfusion h)
  | .float _, .none => .isFalse (fun h => PyVal.noConfusion h)
  | .float _, .int _ => .isFalse (fun h => PyVal.noConfusion h)
  | .float a, .float b =>
    match decEq a b with
    | .isTrue h => .isTrue (by rw [h])
    | .isFalse h => .isFalse (fun hc => h (by cases hc; rfl))
  | .float _, .str _ => .isFalse (fun h => PyVal.noConfusion h)
  | .float _, .dict _ => .isFalse (fun h => PyVal.noConfusion h)
  | .str _, .none => .isFalse (fun h => PyVal.noConfusion h)
  | .str _, .int _ => .isFalse (fun h => PyVal.noConfusion h)
  | .str _, .float _ => .isFalse (fun h => PyVal.noConfusion h)
  | .str a, .str b =>
    match decEq a b with
    | .isTrue h => .isTrue (by rw [h])
    | .isFalse h => .isFalse (fun hc => h (by cases hc; rfl))
  | .str _, .dict _ => .isFalse (fun h => PyVal.noConfusion h)
  | .dict _, .none => .isFalse (fun h => PyVal.noConfusion h)
  | .dict _, .int _ => .isFalse (fun h => PyVal.noConfusion h)
  | .dict _, .float _ => .isFalse (fun h => PyVal.noConfusion h)
  | .dict _, .str _ => .isFalse (fun h => PyVal.noConfusion h)
  | .dict a, .dict b =>
    match entriesDecEq a b with
    | .isTrue h => .isTrue (by rw [h])
    | .isFalse h => .isFalse (fun hc => h (by cases hc; rfl))

/-- Decision procedure for equality of entry lists. -/
def entriesDecEq : (a b : List (String × PyVal)) → Decidable (a = b)
  | [], [] => .isTrue rfl
  | [], _ :: _ => .isFalse (fun h => List.noConfusion h)
  | _ :: _, [] => .isFalse (fun h => List.noConfusion h)
  | (k, v) :: a, (l, w) :: b =>
    match decEq k l, pyValDecEq v w, entriesDecEq a b with
    | .isTrue h1, .isTrue h2, .isTrue h3 => .isTrue (by rw [h1, h2, h3])
    | .isFalse h1, _, _ => .isFalse (fun hc => h1 (by cases hc; rfl))
    | _, .isFalse h2, _ => .isFalse (fun hc => h2 (by cases hc; rfl))
    | _, _, .isFalse h3 => .isFalse (fun hc => h3 (by cases hc; rfl))

end

instance : DecidableEq PyVal := pyValDecEq

instance {ε : Type u1} {α : Type u2} [DecidableEq ε] [DecidableEq α] :
    DecidableEq (Except ε α) := fun x y =>
  match x, y with
  | .error a, .error b =>
    if h : a = b then .isTrue (by rw [h])
    else .isFalse (fun hc => h (Except.noConfusion hc id))
  | .ok a, .ok b =>
    if h : a = b then .isTrue (by rw [h])
    else .isFalse (fun hc => h (Except.noConfusion hc id))
  | .error _, .ok _ => .isFalse (fun hc => Except.noConfusion hc)
  | .ok _, .error _ => .isFalse (fun hc => Except.noConfusion hc)

/-- Split an optional leading sign character, shared by the numeric
parsers below. -/
def splitSign (cs : List Char) : List Char × List Char :=
  match cs with
  | c :: t => if c == '+' || c == '-' then ([c], t) else ([], cs)
  | [] => ([], [])

/-- Match of the regular expression `[-+]?\d*\.?\d+` anchored at the
head of `cs`, with Python backtracking semantics: an optional sign,
then either `digits . digits`, `. digits`, or bare `digits` (when no
digit follows the dot, the greedy engine backtracks and the dot is left
out of the match). -/
def matchNumAt (cs : List Char) : Option (List Char) :=
  let (sign, rest) := splitSign cs
  let d1 := rest.takeWhile Char.isDigit
  let r1 := rest.dropWhile Char.isDigit
  match r1 with
  | '.' :: r2 =>
    let d2 := r2.takeWhile Char.isDigit
    if d2.isEmpty then
      if d1.isEmpty then Option.none else some (sign ++ d1)
    else some (sign ++ d1 ++ '.' :: d2)
  | _ => if d1.isEmpty then Option.none else some (sign ++ d1)

/-- Leftmost match of `[-+]?\d*\.?\d+` in `cs`, modelling
`re.search(r'[-+]?\d*\.?\d+', s)`. -/
def findNum : List Char → Option (List Char)
  | [] => Option.none
  | c :: cs =>
    match matchNumAt (c :: cs) with
    | some m => some m
    | Option.none => findNum cs

/-- Value of a list of decimal digit characters. -/
def natOfDigits (cs : List Char) : Nat :=
  cs.foldl (fun a c => a * 10 + (c.toNat - 48)) 0

/-- Exact value of the text matched by the extraction regex, modelling
`float()` applied to `match.group()`: sign, integer digits, optional
dot and fraction digits. -/
def decOfMatch (cs : List Char) : Dec :=
  let (sign, body) := splitSign cs
  let ip := body.takeWhile Char.isDigit
  let rest := body.dropWhile Char.isDigit
  let d : Dec :=
    match rest with
    | '.' :: fp =>
      let fd := fp.takeWhile Char.isDigit
      ⟨natOfDigits (ip ++ fd), fd.length⟩
    | _ => ⟨natOfDigits ip, 0⟩
  if sign = ['-'] then ⟨-d.mant, d.exp⟩ else d

/-- Embedding of `FilterModule.get_numeric_value` (source lines
147-163): `None` stays `None`, numbers are coerced to float, and any
other value is stringified and searched for the first decimal literal;
no match yields `None`. -/
def get_numeric_value : PyVal → Option PyFloat
  | .none => Option.none
  | .int n => some (.finite ⟨n, 0⟩)
  | .float f => some f
  | v => (findNum (pyStrOf v).data).map (fun m => .finite (decOfMatch m))

/-- Python `int(str)`: optional surrounding whitespace, an optional
sign and one or more digits.  Digit-group underscores are not
modelled. -/
def pyIntParse (cs : List Char) : Option Int :=
  let cs := stripWsL cs
  let (sign, rest) := splitSign cs
  if rest.isEmpty || !rest.all Char.isDigit then Option.none
  else
    let n : Int := natOfDigits rest
    some (if sign = ['-'] then -n else n)

/-- Mantissa (unsigned value `m / 10^f`) with an optional trailing
exponent part, shared by `pyFloatParse`. -/
def withExpD (m : Nat) (f : Nat) : List Char → Option Dec
  | [] => some ⟨m, f⟩
  | c :: t =>
    if c == 'e' || c == 'E' then
      let (esign, et) := splitSign t
      if et.isEmpty || !et.all Char.isDigit then Option.none
      else
        let e : Int := if esign = ['-'] then -(natOfDigits et : Int) else (natOfDigits et : Int)
        let net : Int := e - f
        some (if 0 ≤ net then ⟨(m * pow10 net.toNat : Nat), 0⟩ else ⟨m, (-net).toNat⟩)
    else Option.none

/-- Python `float(str)` on the decimal grammar: optional surrounding
whitespace, optional sign, `digits (. digits?)? | . digits`, optional
exponent.  The named values `inf`/`nan` (unreachable here: the caller
only tries `float` on text containing a dot) and digit-group
underscores are not modelled. -/
def pyFloatParse (cs : List Char) : Option Dec :=
  let cs := stripWsL cs
  let (sign, rest) := splitSign cs
  let ip := rest.takeWhile Char.isDigit
  let r1 := rest.dropWhile Char.isDigit
  let unsigned :=
    match r1 with
    | '.' :: r2 =>
      let fd := r2.takeWhile Char.isDigit
      let r3 := r2.dropWhile Char.isDigit
      if ip.isEmpty && fd.isEmpty then Option.none
      else withExpD (natOfDigits (ip ++ fd)) fd.length r3
    | _ => if ip.isEmpty then Option.none else withExpD (natOfDigits ip) 0 r1
  unsigned.map (fun d => if sign = ['-'] then ⟨-d.mant, d.exp⟩ else d)

/-- Characters after the first `=`, modelling `s.split('=', 1)[1]`. -/
def afterEq : List Char → List Char
  | [] => []
  | c :: cs => if c == '=' then cs else afterEq cs

/-- Test for the presence of `=`, modelling Python `'=' in s`. -/
def hasEq (cs : List Char) : Bool :=
  cs.any (· == '=')

/-- One SNMP type-tag removal, modelling `re.sub(r'^TAG\s*', '', s)`:
if `cs` starts with the tag, drop it and any following whitespace. -/
def dropTag (tag : List Char) (cs : List Char) : List Char :=
  if leadsWith tag cs then (cs.drop tag.length).dropWhile pyWs else cs

/-- Sequential application of the six type-tag removals, in the order
the source lists the patterns (lines 120-130). -/
def stripTypeTags (cs : List Char) : List Char :=
  dropTag "OID:".data
    (dropTag "Opaque:".data
      (dropTag "Counter32:".data
        (dropTag "Gauge32:".data
          (dropTag "STRING:".data
            (dropTag "INTEGER:".data cs)))))

/-- Quote characters `"` and `'`. -/
def quoteCh (c : Char) : Bool :=
  c == Char.ofNat 34 || c == Char.ofNat 39

/-- Removal of every leading and trailing quote character, modelling
Python `s.strip('"\x27')`. -/
def stripQuotesL (cs : List Char) : List Char :=
  ((cs.dropWhile quoteCh).reverse.dropWhile quoteCh).reverse

/-- Text path of `FilterModule.parse_snmp_value` (source lines
112-145): text containing `=` is split once on the first `=`,
whitespace-stripped, stripped of leading type tags and of surrounding
quotes, then converted to a float when a dot is present, else to an
int, falling back to the cleaned text; text without `=` is returned
stripped of surrounding whitespace. -/
def parseText (s : String) : PyVal :=
  if hasEq s.data then
    let valuePart := stripQuotesL (stripTypeTags (stripWsL (afterEq s.data)))
    if valuePart.contains '.' then
      match pyFloatParse valuePart with
      | some d => .float (.finite d)
      | Option.none => .str ⟨valuePart⟩
    else
      match pyIntParse valuePart with
      | some n => .int n
      | Option.none => .str ⟨valuePart⟩
  else .str ⟨stripWsL s.data⟩

/-- Dispatch of `FilterModule.parse_snmp_value` (source lines 107-111):
falsy and numeric inputs pass through; every other value is stringified
and handed to the text path above. -/
def parse_snmp_value (raw : PyVal) : PyVal :=
  if !pyTruthy raw then raw
  else
    match raw with
    | .int _ => raw
    | .float _ => raw
    | _ => parseText (pyStrOf raw)

/-- Fixed UPS state table of `FilterModule.decode_ups_state`
(source lines 167-180). -/
def stateMap (n : Int) : Option String :=
  if n = 1 then some "Unknown"
  else if n = 2 then some "Normal Operation"
  else if n = 3 then some "On Battery"
  else if n = 4 then some "Smart Boost (Low Voltage Compensation)"
  else if n = 5 then some "Timed Sleeping"
  else if n = 6 then some "Software Bypass"
  else if n = 7 then some "Off"
  else if n = 8 then some "Rebooting"
  else if n = 9 then some "Switched Bypass"
  else if n = 10 then some "Hardware Failure Bypass"
  else if n = 11 then some "Sleeping Until Power Restored"
  else if n = 12 then some "Smart Trim (High Voltage Compensation)"
  else Option.none

/-- Embedding of `FilterModule.decode_ups_state` (source lines
165-186): the input passes through `get_numeric_value`; no numeric
value yields `"State Unknown"`; otherwise `int()` truncates the float
(raising on non-finite values — nothing in this function catches that)
and the result is looked up in `stateMap` with an
`Unknown State (<float>)` default whose f-string interpolates the
un-truncated float. -/
def decode_ups_state (state_code : PyVal) : Except String String :=
  match get_numeric_value state_code with
  | Option.none => .ok "State Unknown"
  | some f =>
    match pyTruncF f with
    | .error e => .error e
    | .ok n => .ok ((stateMap n).getD ("Unknown State (" ++ fmtF f ++ ")"))

/-- Lookup in a parsed-data association list, modelling
`parsed_data.get(key)` on the dict built by repeated assignment: the
last binding of a key wins and a missing key yields `None`. -/
def entryLookup (es : List (String × PyVal)) (key : String) : PyVal :=
  match es.reverse.find? (fun kv => kv.1 == key) with
  | some kv => kv.2
  | Option.none => .none

/-- Embedding of the normalization loop of `analyze_power_quality`
(source lines 34-36): every entry's value is passed through
`parse_snmp_value`. -/
def parseEntries (ses : List (String × PyVal)) : List (String × PyVal) :=
  ses.map (fun kv => (kv.1, parse_snmp_value kv.2))

/-- Issues and alerts appended by the input-voltage check (source lines
39-46): the extracted value must be truthy, then `< 200` fires
undervoltage, else `> 250` fires overvoltage. -/
def voltageStage (v : Option PyFloat) : List String × List String :=
  match v with
  | Option.none => ([], [])
  | some f =>
    if pyTruthyF f then
      if pyLtI f 200 then (["UNDERVOLTAGE: " ++ fmtF f ++ "V"], ["LOW_VOLTAGE"])
      else if pyGtI f 250 then (["OVERVOLTAGE: " ++ fmtF f ++ "V"], ["HIGH_VOLTAGE"])
      else ([], [])
    else ([], [])

/-- Issues and alerts appended by the UPS-state check (source lines
52-60): the extracted float is compared for equality with the literals
4, 12 and 3, in that order, with no truncation. -/
def stateStage (s : Option PyFloat) : List String × List String :=
  match s with
  | Option.none => ([], [])
  | some f =>
    if pyEqInt f 4 then
      (["VOLTAGE_COMPENSATION: Smart Boost (Low Voltage Compensation)"],
       ["COMPENSATION_ACTIVE"])
    else if pyEqInt f 12 then
      (["VOLTAGE_COMPENSATION: Smart Trim (High Voltage Compensation)"],
       ["COMPENSATION_ACTIVE"])
    else if pyEqInt f 3 then
      (["POWER_FAILURE: Running on Battery"], ["ON_BATTERY"])
    else ([], [])

/-- Issues and alerts appended by the output-load check (source lines
62-72). -/
def loadStage (l : Option PyFloat) (capacity : PyVal) : List String × List String :=
  match l with
  | Option.none => ([], [])
  | some f =>
    if pyTruthyF f then
      if pyGtI f 80 then
        (["HIGH_LOAD: " ++ fmtF f ++ "% (" ++ pyStrOf capacity ++ "W capacity)"],
         ["HIGH_LOAD"])
      else if pyGtI f 60 then
        (["MODERATE_LOAD: " ++ fmtF f ++ "%"], ["MODERATE_LOAD"])
      else ([], [])
    else ([], [])

/-- Issues and alerts appended by the battery-temperature check (source
lines 75-78).  The degree glyph in the source file is the two-character
mojibake sequence U+00C2 U+00B0 (`Â°`), reproduced here verbatim. -/
def tempStage (t : Option PyFloat) : List String × List String :=
  match t with
  | Option.none => ([], [])
  | some f =>
    if pyTruthyF f && pyGtI f 35 then
      (["HIGH_TEMPERATURE: " ++ fmtF f ++ "Â°C"], ["HIGH_TEMP"])
    else ([], [])

/-- Issues and alerts appended by the input-frequency check (source
lines 81-85). -/
def freqStage (fr : Option PyFloat) : List String × List String :=
  match fr with
  | Option.none => ([], [])
  | some f =>
    if pyTruthyF f then
      if pyLtI f 49 || pyGtI f 51 then
        (["FREQUENCY_DEVIATION: " ++ fmtF f ++ "Hz"], ["FREQUENCY_ISSUE"])
      else ([], [])
    else ([], [])

/-- Embedding of `FilterModule.calculate_quality_score` (source lines
242-258): the empty list returns 100 immediately; otherwise each issue
deducts 30/15/10/5 by first-match-wins substring checks and the total
is clamped from below at 0.  The float arithmetic is exact (integer
deductions from 100.0), so the score is carried as an integer-valued
decimal. -/
def calculate_quality_score (issues : List String) : Dec :=
  if issues.isEmpty then ⟨100, 0⟩
  else
    let score := issues.foldl scoreStep 100
    ⟨if score < 0 then 0 else score, 0⟩
where
  /-- Loop body of the scorer: the `score -= …` if-chain of lines
  248-256 (substring tests in source order, first match wins). -/
  scoreStep (score : Int) (issue : String) : Int :=
    if subIn "CRITICAL" issue || subIn "POWER_FAILURE" issue then score - 30
    else if subIn "HIGH" issue || subIn "COMPENSATION" issue then score - 15
    else if subIn "MODERATE" issue || subIn "WARNING" issue then score - 10
    else score - 5

/-- Embedding of `FilterModule.generate_recommendations` (source lines
260-283); the `monitoring_data` parameter of the source is unused there
and omitted. -/
def generate_recommendations (issues : List String) : List String :=
  (if issues.any (fun i => subIn "VOLTAGE_COMPENSATION" i) then
    ["Investigate utility power quality - frequent compensation may indicate upstream issues",
     "Consider installing power conditioning equipment"]
  else []) ++
  (if issues.any (fun i => subIn "HIGH_LOAD" i) then
    ["Plan for load redistribution or additional UPS capacity",
     "Review critical vs non-critical load classification"]
  else []) ++
  (if issues.any (fun i => subIn "HIGH_TEMPERATURE" i) then
    ["Check UPS ventilation and ambient temperature",
     "Verify UPS internal fans are operational"]
  else []) ++
  (if issues.any (fun i => subIn "FREQUENCY" i) then
    ["Contact utility company regarding power quality issues",
     "Consider generator or frequency regulation equipment"]
  else []) ++
  (if issues.isEmpty then
    ["UPS operating normally - continue regular monitoring"]
  else [])

/-- Result record of `analyze_power_quality`.  The Python function
returns a dict; optional fields model keys that the degraded
(exception) result omits.  The wall-clock `analysis_timestamp` is
outside the embedding. -/
structure Analysis where
  issues : List String
  alerts : List String
  parsed : Option (List (String × PyVal))
  stateDesc : Option String
  score : Option Dec
  recommendations : Option (List String)
  error : Option String
  deriving DecidableEq, Repr

/-- Happy path of `analyze_power_quality` over the entries of
`snmp_data` (source lines 34-96).  The only step that can raise is the
state decoding (`int()` of a non-finite float); its error propagates to
the caller's `except` clause. -/
def evalCore (ses : List (String × PyVal)) (capacity : PyVal) :
    Except String Analysis :=
  match decode_ups_state
      (match get_numeric_value (entryLookup (parseEntries ses) "ups_basic_state") with
        | Option.none => PyVal.none
        | some f => PyVal.float f) with
  | .error e => .error e
  | .ok stateInfo =>
    .ok
      { issues :=
          (voltageStage (get_numeric_value (entryLookup (parseEntries ses) "input_voltage"))).1 ++
          (stateStage (get_numeric_value (entryLookup (parseEntries ses) "ups_basic_state"))).1 ++
          (loadStage (get_numeric_value (entryLookup (parseEntries ses) "output_load")) capacity).1 ++
          (tempStage (get_numeric_value (entryLookup (parseEntries ses) "battery_temperature"))).1 ++
          (freqStage (get_numeric_value (entryLookup (parseEntries ses) "input_frequency"))).1
        alerts :=
          (voltageStage (get_numeric_value (entryLookup (parseEntries ses) "input_voltage"))).2 ++
          (stateStage (get_numeric_value (entryLookup (parseEntries ses) "ups_basic_state"))).2 ++
          (loadStage (get_numeric_value (entryLookup (parseEntries ses) "output_load")) capacity).2 ++
          (tempStage (get_numeric_value (entryLookup (parseEntries ses) "battery_temperature"))).2 ++
          (freqStage (get_numeric_value (entryLookup (parseEntries ses) "input_frequency"))).2
        parsed := some (parseEntries ses)
        stateDesc := some stateInfo
        score := some (calculate_quality_score
          ((voltageStage (get_numeric_value (entryLookup (parseEntries ses) "input_voltage"))).1 ++
           (stateStage (get_numeric_value (entryLookup (parseEntries ses) "ups_basic_state"))).1 ++
           (loadStage (get_numeric_value (entryLookup (parseEntries ses) "output_load")) capacity).1 ++
           (tempStage (get_numeric_value (entryLookup (parseEntries ses) "battery_temperature"))).1 ++
           (freqStage (get_numeric_value (entryLookup (parseEntries ses) "input_frequency"))).1))
        recommendations := some (generate_recommendations
          ((voltageStage (get_numeric_value (entryLookup (parseEntries ses) "input_voltage"))).1 ++
           (stateStage (get_numeric_value (entryLookup (parseEntries ses) "ups_basic_state"))).1 ++
           (loadStage (get_numeric_value (entryLookup (parseEntries ses) "output_load")) capacity).1 ++
           (tempStage (get_numeric_value (entryLookup (parseEntries ses) "battery_temperature"))).1 ++
           (freqStage (get_numeric_value (entryLookup (parseEntries ses) "input_frequency"))).1))
        error := Option.none }

/-- Python type name of a value, as it appears in `AttributeError`
messages. -/
def pyTypeName : PyVal → String
  | .none => "NoneType"
  | .int _ => "int"
  | .float _ => "float"
  | .str _ => "str"
  | .dict _ => "dict"

/-- Message text (Python `str(e)`) of the `AttributeError` raised when
a non-dict value receives a dict method call. -/
def noAttrMsg (v : PyVal) (attr : String) : String :=
  "\x27" ++ pyTypeName v ++ "\x27 object has no attribute \x27" ++ attr ++ "\x27"

/-- Python `x.get(key, default)`: succeeds only on a dict (where the
last binding wins) and raises `AttributeError` on every other value. -/
def pyGetDefault (v : PyVal) (key : String) (dflt : PyVal) : Except String PyVal :=
  match v with
  | .dict es =>
    .ok (match es.reverse.find? (fun kv => kv.1 == key) with
      | some kv => kv.2
      | Option.none => dflt)
  | _ => .error (noAttrMsg v "get")

/-- Python `x.items()`: succeeds only on a dict. -/
def pyItems (v : PyVal) : Except String (List (String × PyVal)) :=
  match v with
  | .dict es => .ok es
  | _ => .error (noAttrMsg v "items")

/-- Body of the `try` block of `analyze_power_quality` (source lines
30-96).  The `capacity_watts` lookup happens mid-body in the source; it
is hoisted here, which is observationally equal because the first
successful `get` already establishes that `monitoring_data` is a
dict. -/
def analyzeBody (monitoring_data : PyVal) : Except String Analysis :=
  match pyGetDefault monitoring_data "snmp_data" (PyVal.dict []) with
  | .error e => .error e
  | .ok snmp =>
    match pyItems snmp with
    | .error e => .error e
    | .ok ses =>
      match pyGetDefault monitoring_data "capacity_watts" (PyVal.int 1000) with
      | .error e => .error e
      | .ok capacity => evalCore ses capacity

/-- Embedding of `FilterModule.analyze_power_quality` (source lines
24-105): the whole body runs under `try`, and any exception is
converted into the degraded result of the `except` clause (lines
98-103).  The function is total: no input raises. -/
def analyze_power_quality (monitoring_data : PyVal) : Analysis :=
  match analyzeBody monitoring_data with
  | .ok a => a
  | .error e =>
    { issues := ["ANALYSIS_ERROR: " ++ e]
      alerts := ["ANALYSIS_FAILED"]
      parsed := Option.none
      stateDesc := Option.none
      score := Option.none
      recommendations := Option.none
      error := some e }

/-- Per-issue deduction of the scorer, stated declaratively from the
spec's rule table (first match wins, in this order), valued in ℚ. -/
def issueDeduction (issue : String) : ℚ :=
  if subIn "CRITICAL" issue || subIn "POWER_FAILURE" issue then 30
  else if subIn "HIGH" issue || subIn "COMPENSATION" issue then 15
  else if subIn "MODERATE" issue || subIn "WARNING" issue then 10
  else 5

/-- Removal of exactly one layer of surrounding quotes, as claim C7
words it: when the first and last characters are each a single or
double quote, drop both; otherwise leave the text unchanged. -/
def stripOneQuoteLayer (cs : List Char) : List Char :=
  match cs, cs.reverse with
  | a :: _, b :: _ =>
    if 2 ≤ cs.length && quoteCh a && quoteCh b then (cs.drop 1).dropLast else cs
  | _, _ => cs

/-- The normalizer for text containing `=` exactly as claim C7 states
it: split once on the first `=`, strip whitespace, strip a single
leading type tag (the first of the six that matches), strip one layer
of surrounding quotes, then float on a dot, else int, else the cleaned
text.  This definition follows the claim's words; the counterexample
compares it against the source embedding. -/
def claimNormalizeC7 (s : String) : PyVal :=
  let vp0 := stripWsL (afterEq s.data)
  let vp1 :=
    if leadsWith "INTEGER:".data vp0 then dropTag "INTEGER:".data vp0
    else if leadsWith "STRING:".data vp0 then dropTag "STRING:".data vp0
    else if leadsWith "Gauge32:".data vp0 then dropTag "Gauge32:".data vp0
    else if leadsWith "Counter32:".data vp0 then dropTag "Counter32:".data vp0
    else if leadsWith "Opaque:".data vp0 then dropTag "Opaque:".data vp0
    else if leadsWith "OID:".data vp0 then dropTag "OID:".data vp0
    else vp0
  let vp := stripOneQuoteLayer vp1
  if vp.contains '.' then
    match pyFloatParse vp with
    | some d => .float (.finite d)
    | Option.none => .str ⟨vp⟩
  else
    match pyIntParse vp with
    | some n => .int n
    | Option.none => .str ⟨vp⟩

/-- The six type tags in source order, for the amended-claim normalizer
below. -/
def specTags : List (List Char) :=
  ["INTEGER:".data, "STRING:".data, "Gauge32:".data,
   "Counter32:".data, "Opaque:".data, "OID:".data]

/-- Recursive removal of leading quote characters (a formulation of
quote trimming independent of `List.dropWhile`, for the amended-claim
normalizer). -/
def trimQuotesFront : List Char → List Char
  | [] => []
  | c :: cs => if quoteCh c then trimQuotesFront cs else c :: cs

/-- Removal of all surrounding quote characters by trimming each end,
as the amended claim C7 words it. -/
def specStripQuotes (cs : List Char) : List Char :=
  (trimQuotesFront ((trimQuotesFront cs).reverse)).reverse

/-- The normalizer for text containing `=` as the amended claim C7
states it: split once on the first `=`, strip whitespace, apply the six
type-tag removals in sequence (so stacked tags are all removed), strip
all surrounding quote characters, then float on a dot, else int, else
the cleaned text. -/
def specNormalize (s : String) : PyVal :=
  let vp := specStripQuotes
    (specTags.foldl (fun acc tag => dropTag tag acc) (stripWsL (afterEq s.data)))
  if vp.contains '.' then
    match pyFloatParse vp with
    | some d => .float (.finite d)
    | Option.none => .str ⟨vp⟩
  else
    match pyIntParse vp with
    | some n => .int n
    | Option.none => .str ⟨vp⟩

/-- Outputs of the normalizer on which a second pass is stable, for the
amended claim C8: numbers and falsy values, and strings that contain no
`=` and carry no surrounding whitespace. -/
def stableOutB : PyVal → Bool
  | .str s => !hasEq s.data && (stripWs s == s)
  | .dict es => es.isEmpty
  | _ => true

theorem Dec.toRat_int (n : Int) : Dec.toRat ⟨n, 0⟩ = (n : ℚ) := by
  simp [Dec.toRat, pow10]

theorem evalCore_ok_error {ses : List (String × PyVal)} {cap : PyVal}
    {a : Analysis} (h : evalCore ses cap = .ok a) : a.error = Option.none := by
  unfold evalCore at h
  split at h
  · simp at h
  · cases h
    rfl

theorem analyzeBody_ok_error {md : PyVal} {a : Analysis}
    (h : analyzeBody md = .ok a) : a.error = Option.none := by
  unfold analyzeBody at h
  split at h
  · simp at h
  · split at h
    · simp at h
    · split at h
      · simp at h
      · exact evalCore_ok_error h

theorem evalCore_ok_issues {ses : List (String × PyVal)} {cap : PyVal}
    {a : Analysis} (h : evalCore ses cap = .ok a) :
    a.issues =
      (voltageStage (get_numeric_value (entryLookup (parseEntries ses) "input_voltage"))).1 ++
      (stateStage (get_numeric_value (entryLookup (parseEntries ses) "ups_basic_state"))).1 ++
      (loadStage (get_numeric_value (entryLookup (parseEntries ses) "output_load")) cap).1 ++
      (tempStage (get_numeric_value (entryLookup (parseEntries ses) "battery_temperature"))).1 ++
      (freqStage (get_numeric_value (entryLookup (parseEntries ses) "input_frequency"))).1 := by
  unfold evalCore at h
  split at h
  · simp at h
  · cases h
    rfl

theorem evalCore_ok_alerts {ses : List (String × PyVal)} {cap : PyVal}
    {a : Analysis} (h : evalCore ses cap = .ok a) :
    a.alerts =
      (voltageStage (get_numeric_value (entryLookup (parseEntries ses) "input_voltage"))).2 ++
      (stateStage (get_numeric_value (entryLookup (parseEntries ses) "ups_basic_state"))).2 ++
      (loadStage (get_numeric_value (entryLookup (parseEntries ses) "output_load")) cap).2 ++
      (tempStage (get_numeric_value (entryLookup (parseEntries ses) "battery_temperature"))).2 ++
      (freqStage (get_numeric_value (entryLookup (parseEntries ses) "input_frequency"))).2 := by
  unfold evalCore at h
  split at h
  · simp at h
  · cases h
    rfl

theorem scoreStep_cast (s : Int) (i : String) :
    ((calculate_quality_score.scoreStep s i : Int) : ℚ) = (s : ℚ) - issueDeduction i := by
  unfold calculate_quality_score.scoreStep issueDeduction
  split_ifs <;> push_cast <;> ring

theorem scoreFold_cast :
    ∀ (l : List String) (a : Int),
      ((l.foldl calculate_quality_score.scoreStep a : Int) : ℚ) =
        (a : ℚ) - (l.map issueDeduction).sum
  | [], a => by simp
  | x :: l, a => by
    rw [List.foldl_cons, scoreFold_cast l (calculate_quality_score.scoreStep a x)]
    rw [scoreStep_cast]
    simp [List.map_cons, List.sum_cons]
    ring

theorem issueDeduction_pos (issue : String) : 0 < issueDeduction issue := by
  unfold issueDeduction
  split_ifs <;> norm_num

theorem issueDeduction_sum_nonneg (l : List String) :
    0 ≤ (l.map issueDeduction).sum := by
  apply List.sum_nonneg
  intro x hx
  rcases List.mem_map.mp hx with ⟨i, _, rfl⟩
  exact le_of_lt (issueDeduction_pos i)

/-- C1: for every input value `monitoring_data` (of any shape,
including non-mapping values) the evaluator never raises —
`analyze_power_quality` is a total function of type `PyVal → Analysis`
— and whenever any exception occurs inside the body the result is
degraded with issues exactly `["ANALYSIS_ERROR: <message>"]`, alerts
exactly `["ANALYSIS_FAILED"]`, and an error field carrying the message;
otherwise the result carries no error field. -/
theorem analyze_power_quality_never_raises (md : PyVal) :
    (analyze_power_quality md).error = Option.none ∨
    ∃ msg, (analyze_power_quality md).issues = ["ANALYSIS_ERROR: " ++ msg] ∧
      (analyze_power_quality md).alerts = ["ANALYSIS_FAILED"] ∧
      (analyze_power_quality md).error = some msg := by
  cases h : analyzeBody md with
  | ok a =>
    left
    simp only [analyze_power_quality, h]
    exact analyzeBody_ok_error h
  | error e =>
    right
    exact ⟨e, by simp [analyze_power_quality, h]⟩

/-- C2: the quality score starts at 100, deducts per issue by
first-match-wins substring checks (CRITICAL/POWER_FAILURE −30, else
HIGH/COMPENSATION −15, else MODERATE/WARNING −10, else −5), clamps at
0, is always in [0, 100], maps the empty list to exactly 100, and maps
`["HIGH_LOAD: 85% (1000W capacity)"]` to exactly 85. -/
theorem calculate_quality_score_spec (issues : List String) :
    (calculate_quality_score issues).toRat =
      max 0 (100 - (issues.map issueDeduction).sum) ∧
    0 ≤ (calculate_quality_score issues).toRat ∧
    (calculate_quality_score issues).toRat ≤ 100 ∧
    (calculate_quality_score []).toRat = 100 ∧
    (calculate_quality_score ["HIGH_LOAD: 85% (1000W capacity)"]).toRat = 85 := by
  have hmain : ∀ l : List String,
      (calculate_quality_score l).toRat =
        max 0 (100 - (l.map issueDeduction).sum) := by
    intro l
    cases l with
    | nil => simp [calculate_quality_score, Dec.toRat_int]
    | cons x t =>
      have hfold := scoreFold_cast (x :: t) 100
      push_cast at hfold
      unfold calculate_quality_score
      simp only [List.isEmpty_cons, Bool.false_eq_true, if_false]
      split_ifs with hneg
      · rw [Dec.toRat_int]
        have hq : ((List.foldl calculate_quality_score.scoreStep 100 (x :: t) : Int) : ℚ) < 0 := by
          exact_mod_cast hneg
        rw [hfold] at hq
        rw [max_eq_left (by linarith)]
        norm_num
      · rw [Dec.toRat_int]
        have hq : (0 : ℚ) ≤ ((List.foldl calculate_quality_score.scoreStep 100 (x :: t) : Int) : ℚ) := by
          exact_mod_cast not_lt.mp hneg
        rw [hfold] at hq
        rw [max_eq_right (by linarith)]
        exact hfold
  have hex : calculate_quality_score ["HIGH_LOAD: 85% (1000W capacity)"] = ⟨85, 0⟩ := by
    decide
  refine ⟨hmain issues, ?_, ?_, by simp [calculate_quality_score, Dec.toRat_int], ?_⟩
  · rw [hmain issues]
    exact le_max_left _ _
  · rw [hmain issues]
    apply max_le (by norm_num)
    have := issueDeduction_sum_nonneg issues
    linarith
  · rw [hex, Dec.toRat_int]
    norm_num

theorem pow10_pos : ∀ e : Nat, 0 < pow10 e
  | 0 => by simp [pow10]
  | e + 1 => by
    have := pow10_pos e
    simp only [pow10]
    omega

theorem pyEqInt_unique {f : PyFloat} {a b : Int} (ha : pyEqInt f a = true)
    (hb : pyEqInt f b = true) : a = b := by
  cases f with
  | finite d =>
    simp only [pyEqInt, decide_eq_true_eq] at ha hb
    have hp : (0 : Int) < (pow10 d.exp : Int) := by exact_mod_cast pow10_pos d.exp
    have hab : a * (pow10 d.exp : Int) = b * (pow10 d.exp : Int) := by rw [← ha, ← hb]
    exact mul_right_cancel₀ (by omega) hab
  | inf => simp [pyEqInt] at ha
  | negInf => simp [pyEqInt] at ha
  | nan => simp [pyEqInt] at ha

theorem stateMap_out_of_range {n : Int} (h : n < 1 ∨ 12 < n) :
    stateMap n = Option.none := by
  have h1 : n ≠ 1 := by omega
  have h2 : n ≠ 2 := by omega
  have h3 : n ≠ 3 := by omega
  have h4 : n ≠ 4 := by omega
  have h5 : n ≠ 5 := by omega
  have h6 : n ≠ 6 := by omega
  have h7 : n ≠ 7 := by omega
  have h8 : n ≠ 8 := by omega
  have h9 : n ≠ 9 := by omega
  have h10 : n ≠ 10 := by omega
  have h11 : n ≠ 11 := by omega
  have h12 : n ≠ 12 := by omega
  simp [stateMap, h1, h2, h3, h4, h5, h6, h7, h8, h9, h10, h11, h12]

/-- C3 counterexample: with a raw `input_voltage` of `0`, the extracted
numeric value is the number `0`, which is below 200, yet the evaluator
emits no issue and no alert at all — the Python truthiness guard
`if input_voltage:` silently skips the value `0`, so the claim's
"any such number, including 0" fails. -/
theorem voltage_zero_counterexample :
    get_numeric_value (entryLookup
        (parseEntries [("input_voltage", PyVal.int 0)]) "input_voltage")
      = some (PyFloat.finite ⟨0, 0⟩) ∧
    pyLtI (PyFloat.finite ⟨0, 0⟩) 200 = true ∧
    (evalCore [("input_voltage", PyVal.int 0)] (PyVal.int 1000)).toOption.map
        Analysis.issues = some [] ∧
    (evalCore [("input_voltage", PyVal.int 0)] (PyVal.int 1000)).toOption.map
        Analysis.alerts = some [] := by
  decide

/-- C3 (amended: the guard requires a truthy, hence nonzero, extracted
value): whenever the extracted `input_voltage` is a truthy number `v`,
`v < 200` puts `UNDERVOLTAGE: {v}V` and `LOW_VOLTAGE` in the result,
otherwise `v > 250` puts `OVERVOLTAGE: {v}V` and `HIGH_VOLTAGE` there;
the two comparisons can never hold together and the voltage rule emits
at most one issue. -/
theorem voltage_rule_amended (ses : List (String × PyVal)) (cap : PyVal)
    (v : PyFloat) (a : Analysis)
    (hrun : evalCore ses cap = .ok a)
    (hv : get_numeric_value (entryLookup (parseEntries ses) "input_voltage") = some v)
    (ht : pyTruthyF v = true) :
    (pyLtI v 200 = true →
      ("UNDERVOLTAGE: " ++ fmtF v ++ "V") ∈ a.issues ∧ "LOW_VOLTAGE" ∈ a.alerts) ∧
    (pyLtI v 200 = false → pyGtI v 250 = true →
      ("OVERVOLTAGE: " ++ fmtF v ++ "V") ∈ a.issues ∧ "HIGH_VOLTAGE" ∈ a.alerts) ∧
    ¬(pyLtI v 200 = true ∧ pyGtI v 250 = true) ∧
    (voltageStage (some v)).1.length ≤ 1 := by
  have hiss := evalCore_ok_issues hrun
  have halt := evalCore_ok_alerts hrun
  rw [hv] at hiss halt
  refine ⟨?_, ?_, ?_, ?_⟩
  · intro hlt
    have hst : voltageStage (some v) =
        (["UNDERVOLTAGE: " ++ fmtF v ++ "V"], ["LOW_VOLTAGE"]) := by
      simp [voltageStage, ht, hlt]
    rw [hst] at hiss halt
    exact ⟨by rw [hiss]; simp, by rw [halt]; simp⟩
  · intro hlt hgt
    have hst : voltageStage (some v) =
        (["OVERVOLTAGE: " ++ fmtF v ++ "V"], ["HIGH_VOLTAGE"]) := by
      simp [voltageStage, ht, hlt, hgt]
    rw [hst] at hiss halt
    exact ⟨by rw [hiss]; simp, by rw [halt]; simp⟩
  · rintro ⟨hlt, hgt⟩
    cases v with
    | finite d =>
      simp only [pyLtI, decide_eq_true_eq] at hlt
      simp only [pyGtI, decide_eq_true_eq] at hgt
      have hp : (0 : Int) < (pow10 d.exp : Int) := by exact_mod_cast pow10_pos d.exp
      linarith
    | inf => simp [pyLtI] at hlt
    | negInf => simp [pyGtI] at hgt
    | nan => simp [pyLtI] at hlt
  · simp only [voltageStage]
    split_ifs <;> simp

/-- C3 witness: concrete run with `input_voltage = 180`: the amended
rule applied at `v = 180.0` puts the undervoltage issue and alert in
the result. -/
theorem voltage_rule_amended_witness :
    ("UNDERVOLTAGE: " ++ fmtF (.finite ⟨180, 0⟩) ++ "V") ∈
      ({ issues := ["UNDERVOLTAGE: 180.0V"], alerts := ["LOW_VOLTAGE"],
         parsed := some [("input_voltage", PyVal.int 180)],
         stateDesc := some "State Unknown", score := some ⟨95, 0⟩,
         recommendations := some [], error := Option.none } : Analysis).issues ∧
    "LOW_VOLTAGE" ∈
      ({ issues := ["UNDERVOLTAGE: 180.0V"], alerts := ["LOW_VOLTAGE"],
         parsed := some [("input_voltage", PyVal.int 180)],
         stateDesc := some "State Unknown", score := some ⟨95, 0⟩,
         recommendations := some [], error := Option.none } : Analysis).alerts :=
  (voltage_rule_amended [("input_voltage", PyVal.int 180)] (PyVal.int 1000)
    (.finite ⟨180, 0⟩)
    { issues := ["UNDERVOLTAGE: 180.0V"], alerts := ["LOW_VOLTAGE"],
      parsed := some [("input_voltage", PyVal.int 180)],
      stateDesc := some "State Unknown", score := some ⟨95, 0⟩,
      recommendations := some [], error := Option.none }
    (by decide) (by decide) (by decide)).1 (by decide)

/-- C4 counterexample: for a state value of `4.5` the extracted float
truncates to `4`, but the evaluator compares the float itself against
the literal `4` (Python `ups_state == 4`), which is false, so no state
branch fires — `4.5` is not treated as state 4; only the separate
state-description lookup truncates. -/
theorem state_no_truncation_counterexample :
    get_numeric_value (PyVal.float (.finite ⟨45, 1⟩)) = some (.finite ⟨45, 1⟩) ∧
    dTrunc ⟨45, 1⟩ = 4 ∧
    stateStage (some (.finite ⟨45, 1⟩)) = ([], []) ∧
    (evalCore [("ups_basic_state", PyVal.float (.finite ⟨45, 1⟩))]
        (PyVal.int 1000)).toOption.map Analysis.issues = some [] ∧
    (evalCore [("ups_basic_state", PyVal.float (.finite ⟨45, 1⟩))]
        (PyVal.int 1000)).toOption.map Analysis.stateDesc =
      some (some "Smart Boost (Low Voltage Compensation)") := by
  decide

/-- C4 (amended: the state branches compare the extracted float for
equality with the literals 4, 12, 3 without truncation, so only
exactly-integral values fire and `4.5` fires no branch): each equality
emits its fixed issue and alert, a float equal to none of the three
literals emits nothing, and at most one branch fires. -/
theorem state_rule_amended (f : PyFloat) :
    (pyEqInt f 4 = true →
      stateStage (some f) =
        (["VOLTAGE_COMPENSATION: Smart Boost (Low Voltage Compensation)"],
         ["COMPENSATION_ACTIVE"])) ∧
    (pyEqInt f 12 = true →
      stateStage (some f) =
        (["VOLTAGE_COMPENSATION: Smart Trim (High Voltage Compensation)"],
         ["COMPENSATION_ACTIVE"])) ∧
    (pyEqInt f 3 = true →
      stateStage (some f) = (["POWER_FAILURE: Running on Battery"], ["ON_BATTERY"])) ∧
    (pyEqInt f 4 = false → pyEqInt f 12 = false → pyEqInt f 3 = false →
      stateStage (some f) = ([], [])) ∧
    (stateStage (some f)).1.length ≤ 1 ∧
    stateStage Option.none = ([], []) := by
  refine ⟨?_, ?_, ?_, ?_, ?_, rfl⟩
  · intro h4
    simp [stateStage, h4]
  · intro h12
    have h4 : pyEqInt f 4 = false := by
      cases hh : pyEqInt f 4 with
      | false => rfl
      | true => exact absurd (pyEqInt_unique hh h12) (by decide)
    simp [stateStage, h12, h4]
  · intro h3
    have h4 : pyEqInt f 4 = false := by
      cases hh : pyEqInt f 4 with
      | false => rfl
      | true => exact absurd (pyEqInt_unique hh h3) (by decide)
    have h12 : pyEqInt f 12 = false := by
      cases hh : pyEqInt f 12 with
      | false => rfl
      | true => exact absurd (pyEqInt_unique hh h3) (by decide)
    simp [stateStage, h3, h4, h12]
  · intro h4 h12 h3
    simp [stateStage, h4, h12, h3]
  · simp only [stateStage]
    split_ifs <;> simp

/-- C4 witness: the amended rule applied at the exactly-integral state
`4.0` emits the Smart Boost compensation issue and alert. -/
theorem state_rule_amended_witness :
    stateStage (some (.finite ⟨4, 0⟩)) =
      (["VOLTAGE_COMPENSATION: Smart Boost (Low Voltage Compensation)"],
       ["COMPENSATION_ACTIVE"]) :=
  (state_rule_amended (.finite ⟨4, 0⟩)).1 (by decide)

/-- C5 counterexample: `decodeState(99)` interpolates the un-truncated
float into the fallback, producing `"Unknown State (99.0)"`, not the
claimed `"Unknown State (99)"`. -/
theorem decode_state_99_counterexample :
    decode_ups_state (PyVal.int 99) = .ok "Unknown State (99.0)" ∧
    "Unknown State (99.0)" ≠ "Unknown State (99)" := by
  decide

/-- C5 (amended: the fallback interpolates the float value, so unknown
codes print as `Unknown State (<float>)`, e.g. `decodeState(99)` is
`"Unknown State (99.0)"`): on inputs whose extracted value is a finite
float, the decoder truncates toward zero, looks the integer up in the
fixed 12-entry table (so `decodeState(4)` is the Smart Boost entry),
and unknown integers fall back to the float-interpolated text. -/
theorem decode_ups_state_amended (x : PyVal) (d : Dec)
    (h : get_numeric_value x = some (.finite d)) :
    decode_ups_state x =
      .ok ((stateMap (dTrunc d)).getD ("Unknown State (" ++ fmtDec d ++ ")")) ∧
    (dTrunc d < 1 ∨ 12 < dTrunc d →
      decode_ups_state x = .ok ("Unknown State (" ++ fmtDec d ++ ")")) ∧
    decode_ups_state (PyVal.int 4) = .ok "Smart Boost (Low Voltage Compensation)" ∧
    (0 ≤ d.mant → dTrunc d = d.mant.ediv (pow10 d.exp : Int)) ∧
    (d.mant < 0 → dTrunc d = -((-d.mant).ediv (pow10 d.exp : Int))) := by
  have hp : (0 : Int) ≤ (pow10 d.exp : Int) := by positivity
  have hbase : decode_ups_state x =
      .ok ((stateMap (dTrunc d)).getD ("Unknown State (" ++ fmtDec d ++ ")")) := by
    simp [decode_ups_state, h, pyTruncF, fmtF]
  refine ⟨hbase, ?_, by decide, ?_, ?_⟩
  · intro hrange
    rw [hbase, stateMap_out_of_range hrange]
    rfl
  · intro hm
    exact Int.tdiv_eq_ediv hm hp
  · intro hm
    have : d.mant.tdiv (pow10 d.exp : Int) = -((-d.mant).tdiv (pow10 d.exp : Int)) := by
      rw [Int.neg_tdiv, neg_neg]
    rw [dTrunc, this, Int.tdiv_eq_ediv (by omega) hp]
    rfl

/-- C5 witness: the amended decoder applied at input `99` returns the
float-interpolated fallback text. -/
theorem decode_ups_state_amended_witness :
    decode_ups_state (PyVal.int 99) =
      .ok ("Unknown State (" ++ fmtDec ⟨99, 0⟩ ++ ")") :=
  (decode_ups_state_amended (PyVal.int 99) ⟨99, 0⟩ (by decide)).2.1 (by decide)

/-- C9: normalization never drops a key — the parsed SNMP map built
from a raw metric set binds exactly the keys of the raw set, in
order. -/
theorem parseEntries_preserves_keys (ses : List (String × PyVal)) :
    (parseEntries ses).map Prod.fst = ses.map Prod.fst := by
  simp [parseEntries, List.map_map, Function.comp]

/-- C6: the temperature check fires for `t > 35` and stays silent at
`t = 35`, but the issue text it emits is
`HIGH_TEMPERATURE: {t}Â°C` — the source file carries the two-character
mojibake U+00C2 U+00B0 before the `C`, so the emitted string is not
exactly the claimed `HIGH_TEMPERATURE: {t}°C` (single U+00B0). -/
theorem temperature_issue_mojibake :
    tempStage (some (.finite ⟨40, 0⟩)) =
      (["HIGH_TEMPERATURE: 40.0Â°C"], ["HIGH_TEMP"]) ∧
    "HIGH_TEMPERATURE: 40.0Â°C" ≠ "HIGH_TEMPERATURE: 40.0°C" ∧
    tempStage (some (.finite ⟨35, 0⟩)) = ([], []) ∧
    tempStage (some (.finite ⟨351, 1⟩)) =
      (["HIGH_TEMPERATURE: 35.1Â°C"], ["HIGH_TEMP"]) := by
  decide

theorem str_isEmpty_false {s : String} (h : s ≠ "") : s.isEmpty = false := by
  cases hh : s.isEmpty with
  | false => rfl
  | true => exact absurd ((String.isEmpty_iff s).mp hh) h

theorem pyTruthy_str {s : String} (h : s ≠ "") : pyTruthy (.str s) = true := by
  simp [pyTruthy, str_isEmpty_false h]

theorem parse_snmp_value_str (s : String) (hne : s ≠ "") :
    parse_snmp_value (.str s) = parseText s := by
  unfold parse_snmp_value
  rw [pyTruthy_str hne]
  simp only [Bool.not_true, Bool.false_eq_true, if_false]
  simp only [pyStrOf]

theorem trimQuotesFront_eq (cs : List Char) :
    trimQuotesFront cs = cs.dropWhile quoteCh := by
  induction cs with
  | nil => rfl
  | cons c t ih =>
    by_cases h : quoteCh c = true
    · simp [trimQuotesFront, List.dropWhile_cons, h, ih]
    · simp [trimQuotesFront, List.dropWhile_cons, h]

theorem specStripQuotes_eq (cs : List Char) :
    specStripQuotes cs = stripQuotesL cs := by
  simp [specStripQuotes, stripQuotesL, trimQuotesFront_eq]

theorem specTags_fold_eq (cs : List Char) :
    specTags.foldl (fun acc tag => dropTag tag acc) cs = stripTypeTags cs :=
  rfl

/-- C7 counterexample: the source strips every surrounding quote
character (`value_part.strip('"\x27')`), not one layer: on
`x = \x27\x27hello\x27\x27` the code yields `hello` while the claim's
one-layer rule yields `\x27hello\x27`. -/
theorem normalize_one_quote_layer_counterexample :
    parse_snmp_value (.str "x = \x27\x27hello\x27\x27") = .str "hello" ∧
    claimNormalizeC7 "x = \x27\x27hello\x27\x27" = .str "\x27hello\x27" ∧
    PyVal.str "hello" ≠ .str "\x27hello\x27" := by
  decide

/-- C7 (amended: the six type-tag removals are applied in sequence, and
all surrounding quote characters are stripped, not one layer): on every
text input containing `=`, the normalizer equals the amended-claim
pipeline, and the two examples evaluate as claimed:
`1.3.6.1 = INTEGER: 228` to the integer 228 (despite the dots before
the `=`) and the quoted STRING example to `Smart-UPS 1500`. -/
theorem parse_snmp_value_spec (s : String) (h : hasEq s.data = true) :
    parse_snmp_value (.str s) = specNormalize s ∧
    parse_snmp_value (.str "1.3.6.1 = INTEGER: 228") = PyVal.int 228 ∧
    parse_snmp_value (.str "1.3.6.1 = STRING: \"Smart-UPS 1500\"") =
      .str "Smart-UPS 1500" := by
  refine ⟨?_, by decide, by decide⟩
  have hne : s ≠ "" := by
    intro hnil
    rw [hnil] at h
    simp [hasEq] at h
  rw [parse_snmp_value_str s hne]
  unfold parseText specNormalize
  rw [specTags_fold_eq, specStripQuotes_eq, h, if_pos rfl]

/-- C7 witness: the amended pipeline agrees with the source on the
INTEGER example line. -/
theorem parse_snmp_value_spec_witness :
    parse_snmp_value (.str "1.3.6.1 = INTEGER: 228") =
      specNormalize "1.3.6.1 = INTEGER: 228" :=
  (parse_snmp_value_spec "1.3.6.1 = INTEGER: 228" (by decide)).1

/-- C8 counterexample: normalize is not idempotent on its whole range:
a produced string that itself contains `=` is split again on the second
pass — `a = STRING: \x27b = c\x27` normalizes to `b = c`, which
re-normalizes to `c`. -/
theorem normalize_not_idempotent_counterexample :
    parse_snmp_value (.str "a = STRING: \x27b = c\x27") = .str "b = c" ∧
    parse_snmp_value (parse_snmp_value (.str "a = STRING: \x27b = c\x27")) =
      .str "c" ∧
    PyVal.str "c" ≠ .str "b = c" := by
  decide

/-- C8 (amended: idempotence holds for every input whose first
normalization is a number, a falsy value, or a string that contains no
`=` and carries no surrounding whitespace; produced strings containing
`=` — or exposing whitespace once quotes are stripped — are re-parsed
differently): a second pass leaves every such stable output
unchanged. -/
theorem normalize_idempotent_amended (x : PyVal)
    (h : stableOutB (parse_snmp_value x) = true) :
    parse_snmp_value (parse_snmp_value x) = parse_snmp_value x := by
  have key : ∀ y : PyVal, stableOutB y = true → parse_snmp_value y = y := by
    intro y hy
    cases y with
    | none => rfl
    | int n =>
      unfold parse_snmp_value
      split <;> rfl
    | float f =>
      unfold parse_snmp_value
      split <;> rfl
    | str s =>
      by_cases hs : s = ""
      · subst hs; rfl
      · simp only [stableOutB, Bool.and_eq_true, Bool.not_eq_true',
          beq_iff_eq] at hy
        obtain ⟨hne, hstrip⟩ := hy
        rw [parse_snmp_value_str s hs]
        unfold parseText
        rw [hne]
        simp only [Bool.false_eq_true, if_false, PyVal.str.injEq]
        exact hstrip
    | dict es =>
      cases es with
      | nil => rfl
      | cons e t => simp [stableOutB] at hy
  exact key _ h

/-- C8 witness: the amended idempotence applied to a plain string
input. -/
theorem normalize_idempotent_amended_witness :
    parse_snmp_value (parse_snmp_value (.str "abc")) =
      parse_snmp_value (.str "abc") :=
  normalize_idempotent_amended (.str "abc") (by decide)

/-- C10 counterexample: `decode_ups_state` is not total — a non-finite
float input reaches the uncaught `int()` conversion and raises
(`OverflowError` for infinities, `ValueError` for NaN). -/
theorem decode_inf_raises_counterexample :
    decode_ups_state (PyVal.float .inf) =
      .error "cannot convert float infinity to integer" ∧
    decode_ups_state (PyVal.float .nan) =
      .error "cannot convert float NaN to integer" := by
  decide

/-- C10 (amended: totality holds except on inputs whose extracted value
is a non-finite float, where the uncaught `int()` raises): inputs with
no extractable numeric value return `"State Unknown"` rather than an
error, and every finite extracted value returns some string. -/
theorem decode_ups_state_total_amended (x : PyVal) :
    (get_numeric_value x = Option.none →
      decode_ups_state x = .ok "State Unknown") ∧
    (∀ d : Dec, get_numeric_value x = some (.finite d) →
      ∃ s, decode_ups_state x = .ok s) := by
  constructor
  · intro h
    simp [decode_ups_state, h]
  · intro d h
    exact ⟨(stateMap (dTrunc d)).getD ("Unknown State (" ++ fmtF (.finite d) ++ ")"),
      by simp [decode_ups_state, h, pyTruncF]⟩

/-- C10 witness: a non-numeric string input decodes to
`"State Unknown"` without raising. -/
theorem decode_ups_state_total_amended_witness :
    decode_ups_state (PyVal.str "no digits here") = .ok "State Unknown" :=
  (decode_ups_state_total_amended (PyVal.str "no digits here")).1 (by decide)

end UpsFilters
